import Mathlib

/-!
Shallow embedding of `server/models.py`: model-level validations for the
`Author` and `Post` entities, and proofs of the specified validation
contract.

Modelling conventions:
* A Python value passed to a validator is modelled as `Option String`
  (`none` is Python `None`).  All values the validators are applied to in
  this code base are strings or `None`; `str(value)` is the identity on
  strings.
* Every `raise ValueError(msg)` is modelled as `Except.error (.valueError msg)`;
  a normal `return value` is `Except.ok value`.
* The storage collaborator (SQLAlchemy session / inspector / query) is
  modelled as a `Storage` record: whether the `authors` table exists, and
  the list of names of the `Author` rows currently stored.
  `Author.query.filter(Author.name == value).first()` is `List.find?` on
  the stored names.
* Python `str.strip()`, `str.isdigit()` and the substring operator
  `needle in hay` are modelled over the list of characters; the character
  classes (`whitespace`, decimal digit) are the ASCII ones actually
  exercised by this code base.
-/

namespace Models

/-- Every validation failure in `server/models.py` is a `raise ValueError(msg)`:
a single concrete exception type carrying a message string. -/
inductive PyError where
  | valueError (msg : String)
  deriving DecidableEq, Repr

/-- Python `str.strip() == ""` test support: Python `str.strip()` removes
leading and trailing whitespace. -/
def pyStrip (s : String) : String :=
  String.mk (((s.toList.dropWhile Char.isWhitespace).reverse.dropWhile
      Char.isWhitespace).reverse)

/-- Python `str.isdigit()`: true on a non-empty string all of whose
characters are digits (restricted to the decimal digits `0`-`9`). -/
def pyIsdigit (s : String) : Bool :=
  s.length != 0 && s.toList.all Char.isDigit

/-- Substring search over character lists, for Python `needle in hay`. -/
def subSearch : List Char → List Char → Bool
  | needle, [] => needle.isEmpty
  | needle, c :: rest => needle.isPrefixOf (c :: rest) || subSearch needle rest

/-- Python string containment `needle in hay`. -/
def pyInStr (needle hay : String) : Bool :=
  subSearch needle.toList hay.toList

/-- `CLICKBAIT_PHRASES`: the Post title must contain at least one of these. -/
def CLICKBAIT_PHRASES : List String :=
  ["Won\x27t Believe", "Secret", "Top", "Guess"]

/-- `ALLOWED_CATEGORIES`: the Post category must be exactly one of these. -/
def ALLOWED_CATEGORIES : List String :=
  ["Fiction", "Non-Fiction"]

/-- The storage collaborator visible to `Author.validate_name`:
`"authors" in inspector.get_table_names()` and the stored Author rows
(represented by their names). -/
structure Storage where
  authorsTableExists : Bool
  authors : List String
  deriving DecidableEq, Repr

/-- `Author.query.filter(Author.name == value).first()`. -/
def findAuthorByName (st : Storage) (s : String) : Option String :=
  st.authors.find? (fun n => n == s)

namespace Author

/-- `Author.validate_name(self, key, value)`. -/
def validate_name (st : Storage) (value : Option String) :
    Except PyError (Option String) :=
  match value with
  | none => .error (.valueError "Author must have a name.")
  | some s =>
    if pyStrip s = "" then
      .error (.valueError "Author must have a name.")
    else if st.authorsTableExists then
      match findAuthorByName st s with
      | some _ => .error (.valueError "Author name must be unique.")
      | none => .ok (some s)
    else
      .ok (some s)

/-- `Author.validate_phone_number(self, key, value)`. -/
def validate_phone_number (value : Option String) :
    Except PyError (Option String) :=
  match value with
  | none => .ok none
  | some s =>
    if s.length ≠ 10 then
      .error (.valueError "Phone number must be exactly 10 digits.")
    else if !pyIsdigit s then
      .error (.valueError "Phone number must contain digits only.")
    else
      .ok (some s)

end Author

namespace Post

/-- `Post.validate_title(self, key, value)`. -/
def validate_title (value : Option String) : Except PyError (Option String) :=
  match value with
  | none => .error (.valueError "Post must have a title.")
  | some s =>
    if pyStrip s = "" then
      .error (.valueError "Post must have a title.")
    else if !CLICKBAIT_PHRASES.any (fun phrase => pyInStr phrase s) then
      .error (.valueError "Title must contain clickbait keywords.")
    else
      .ok (some s)

/-- `Post.validate_content(self, key, value)`. -/
def validate_content (value : Option String) : Except PyError (Option String) :=
  match value with
  | none => .error (.valueError "Post must have content.")
  | some s =>
    if s.length < 250 then
      .error (.valueError "Content must be at least 250 characters.")
    else
      .ok (some s)

/-- `Post.validate_summary(self, key, value)`. -/
def validate_summary (value : Option String) : Except PyError (Option String) :=
  match value with
  | none => .ok none
  | some s =>
    if s.length > 250 then
      .error (.valueError "Summary must be 250 characters or fewer.")
    else
      .ok (some s)

/-- `Post.validate_category(self, key, value)`. -/
def validate_category (value : Option String) : Except PyError (Option String) :=
  if value ∉ (ALLOWED_CATEGORIES.map some) then
    .error (.valueError "Category must be Fiction or Non-Fiction.")
  else
    .ok value

end Post

/-- The complete set of message strings raised (inside `ValueError`) by the
seven validators of `server/models.py`.  The spec's five error categories —
required-field, format, length, content-policy, uniqueness — correspond to
subsets of these strings and to nothing in the exception type. -/
def validationMessages : List String :=
  ["Author must have a name.",
   "Author name must be unique.",
   "Phone number must be exactly 10 digits.",
   "Phone number must contain digits only.",
   "Post must have a title.",
   "Title must contain clickbait keywords.",
   "Post must have content.",
   "Content must be at least 250 characters.",
   "Summary must be 250 characters or fewer.",
   "Category must be Fiction or Non-Fiction."]

instance : DecidableEq (Except PyError (Option String)) := fun a b =>
  match a, b with
  | .ok x, .ok y =>
      if h : x = y then .isTrue (h ▸ rfl)
      else .isFalse (fun hc => h (Except.ok.inj hc))
  | .error x, .error y =>
      if h : x = y then .isTrue (h ▸ rfl)
      else .isFalse (fun hc => h (Except.error.inj hc))
  | .ok _, .error _ => .isFalse (fun hc => Except.noConfusion hc)
  | .error _, .ok _ => .isFalse (fun hc => Except.noConfusion hc)

end Models

namespace Models

/-! ## Helper lemmas about the modelled Python primitives -/

theorem findAuthorByName_eq_none_iff (st : Storage) (s : String) :
    findAuthorByName st s = none ↔ s ∉ st.authors := by
  simp [findAuthorByName, List.find?_eq_none]
  constructor
  · intro h hmem
    exact h s hmem rfl
  · intro h x hx hxs
    exact h (hxs ▸ hx)

theorem isPrefixOf_iff_exists :
    ∀ (n l : List Char), n.isPrefixOf l = true ↔ ∃ t, n ++ t = l
  | [], l => by simp [List.isPrefixOf]
  | a :: as, [] => by simp [List.isPrefixOf]
  | a :: as, b :: bs => by
    simp [List.isPrefixOf, Bool.and_eq_true, beq_iff_eq,
      isPrefixOf_iff_exists as bs]

theorem subSearch_iff :
    ∀ (n l : List Char), subSearch n l = true ↔ ∃ pre post, l = pre ++ n ++ post
  | n, [] => by
    rw [show subSearch n [] = n.isEmpty from rfl]
    constructor
    · intro h
      have hn : n = [] := by simpa using h
      exact ⟨[], [], by simp [hn]⟩
    · rintro ⟨pre, post, h⟩
      have h2 := List.append_eq_nil.mp h.symm
      have h3 := List.append_eq_nil.mp h2.1
      simp [h3.2]
  | n, c :: rest => by
    rw [show subSearch n (c :: rest) =
        (n.isPrefixOf (c :: rest) || subSearch n rest) from rfl]
    simp only [Bool.or_eq_true, isPrefixOf_iff_exists, subSearch_iff n rest]
    constructor
    · rintro (⟨t, ht⟩ | ⟨pre, post, h⟩)
      · exact ⟨[], t, by simp [ht]⟩
      · exact ⟨c :: pre, post, by simp [h]⟩
    · rintro ⟨pre, post, h⟩
      cases pre with
      | nil =>
        exact Or.inl ⟨post, by simpa using h.symm⟩
      | cons d pre =>
        simp at h
        exact Or.inr ⟨pre, post, by simp [h.2]⟩

/-- `pyInStr` is substring containment. -/
theorem pyInStr_iff (needle hay : String) :
    pyInStr needle hay = true ↔
      ∃ pre post, hay.toList = pre ++ needle.toList ++ post := by
  simp [pyInStr, subSearch_iff]

end Models

namespace Models

set_option maxRecDepth 8000 in
/-- C5: `validate_content` raises the required-field `ValueError` if the value
is null, raises the length `ValueError` iff the non-null value's length is
strictly less than 250, and succeeds (returning the value) for every string of
length ≥ 250; a 249-character string fails, a 250-character string succeeds. -/
theorem validate_content_spec :
    Post.validate_content none = .error (.valueError "Post must have content.")
    ∧ (∀ s : String,
        Post.validate_content (some s) =
            .error (.valueError "Content must be at least 250 characters.")
          ↔ s.length < 250)
    ∧ (∀ s : String, 250 ≤ s.length →
        Post.validate_content (some s) = .ok (some s))
    ∧ Post.validate_content (some (String.mk (List.replicate 249 'a'))) =
        .error (.valueError "Content must be at least 250 characters.")
    ∧ Post.validate_content (some (String.mk (List.replicate 250 'a'))) =
        .ok (some (String.mk (List.replicate 250 'a'))) := by
  refine ⟨rfl, ?_, ?_, rfl, rfl⟩
  · intro s
    simp only [Post.validate_content]
    split_ifs with h <;> simp [h]
  · intro s h
    simp [Post.validate_content, Nat.not_lt.mpr h]

set_option maxRecDepth 8000 in
theorem validate_content_spec_witness :
    Post.validate_content (some (String.mk (List.replicate 250 'b'))) =
      .ok (some (String.mk (List.replicate 250 'b'))) :=
  validate_content_spec.2.2.1 (String.mk (List.replicate 250 'b')) (by decide)

set_option maxRecDepth 8000 in
/-- C6: `validate_summary` passes null through, raises the length `ValueError`
iff the non-null value's length exceeds 250, and returns the value otherwise;
a 251-character string fails, a 250-character string succeeds. -/
theorem validate_summary_spec :
    Post.validate_summary none = .ok none
    ∧ (∀ s : String,
        Post.validate_summary (some s) =
            .error (.valueError "Summary must be 250 characters or fewer.")
          ↔ 250 < s.length)
    ∧ (∀ s : String, s.length ≤ 250 →
        Post.validate_summary (some s) = .ok (some s))
    ∧ Post.validate_summary (some (String.mk (List.replicate 251 'a'))) =
        .error (.valueError "Summary must be 250 characters or fewer.")
    ∧ Post.validate_summary (some (String.mk (List.replicate 250 'a'))) =
        .ok (some (String.mk (List.replicate 250 'a'))) := by
  refine ⟨rfl, ?_, ?_, rfl, rfl⟩
  · intro s
    simp only [Post.validate_summary]
    split_ifs with h <;> simp [h]
  · intro s h
    simp [Post.validate_summary, Nat.not_lt.mpr h]

theorem validate_summary_spec_witness :
    Post.validate_summary (some "abc") = .ok (some "abc") :=
  validate_summary_spec.2.2.1 "abc" (by decide)

/-- C7: `validate_category` returns the value iff it is exactly `"Fiction"` or
exactly `"Non-Fiction"`, and raises the content-policy `ValueError` otherwise;
in particular `"fiction"` and null are both rejected. -/
theorem validate_category_spec :
    (∀ v, Post.validate_category v = .ok v ↔
        v = some "Fiction" ∨ v = some "Non-Fiction")
    ∧ (∀ v, ¬(v = some "Fiction" ∨ v = some "Non-Fiction") →
        Post.validate_category v =
          .error (.valueError "Category must be Fiction or Non-Fiction."))
    ∧ Post.validate_category (some "Fiction") = .ok (some "Fiction")
    ∧ Post.validate_category (some "Non-Fiction") = .ok (some "Non-Fiction")
    ∧ Post.validate_category (some "fiction") =
        .error (.valueError "Category must be Fiction or Non-Fiction.")
    ∧ Post.validate_category none =
        .error (.valueError "Category must be Fiction or Non-Fiction.") := by
  refine ⟨?_, ?_, rfl, rfl, rfl, rfl⟩
  · intro v
    by_cases h : v ∈ ALLOWED_CATEGORIES.map some
    · have hv : v = some "Fiction" ∨ v = some "Non-Fiction" := by
        simpa [ALLOWED_CATEGORIES] using h
      simp [Post.validate_category, h, hv]
    · have hv : ¬(v = some "Fiction" ∨ v = some "Non-Fiction") := by
        simpa [ALLOWED_CATEGORIES] using h
      simp [Post.validate_category, h, hv]
  · intro v hv
    have h : v ∉ ALLOWED_CATEGORIES.map some := by
      simpa [ALLOWED_CATEGORIES] using hv
    simp [Post.validate_category, h]

theorem validate_category_spec_witness :
    Post.validate_category (some "Mystery") =
      .error (.valueError "Category must be Fiction or Non-Fiction.") :=
  validate_category_spec.2.1 (some "Mystery") (by decide)

/-- C10: `validate_summary` performs no required/blank check: the empty string
and whitespace-only strings are accepted and returned unchanged, and every
string of length at most 250 passes. -/
theorem validate_summary_no_required_check :
    Post.validate_summary (some "") = .ok (some "")
    ∧ Post.validate_summary (some "   ") = .ok (some "   ")
    ∧ (∀ s : String, s.length ≤ 250 →
        Post.validate_summary (some s) = .ok (some s)) := by
  refine ⟨rfl, rfl, ?_⟩
  intro s h
  simp [Post.validate_summary, Nat.not_lt.mpr h]

theorem validate_summary_no_required_check_witness :
    Post.validate_summary (some "") = .ok (some "") :=
  validate_summary_no_required_check.2.2 "" (by decide)

end Models

namespace Models

/-! ## Case lemmas for `Author.validate_name` -/

theorem validate_name_of_blank (st : Storage) (s : String)
    (hb : pyStrip s = "") :
    Author.validate_name st (some s) =
      .error (.valueError "Author must have a name.") := by
  simp [Author.validate_name, hb]

theorem validate_name_of_dup (st : Storage) (s : String) (hb : pyStrip s ≠ "")
    (ht : st.authorsTableExists = true) (hm : s ∈ st.authors) :
    Author.validate_name st (some s) =
      .error (.valueError "Author name must be unique.") := by
  have hf : findAuthorByName st s ≠ none := by
    rw [Ne, findAuthorByName_eq_none_iff]
    simpa using hm
  obtain ⟨a, ha⟩ := Option.ne_none_iff_exists'.mp hf
  simp [Author.validate_name, hb, ht, ha]

theorem validate_name_ok_of_not_mem (st : Storage) (s : String)
    (hb : pyStrip s ≠ "") (hm : s ∉ st.authors) :
    Author.validate_name st (some s) = .ok (some s) := by
  have hf : findAuthorByName st s = none :=
    (findAuthorByName_eq_none_iff st s).mpr hm
  by_cases ht : st.authorsTableExists <;>
    simp [Author.validate_name, hb, ht, hf]

theorem validate_name_ok_of_no_table (st : Storage) (s : String)
    (hb : pyStrip s ≠ "") (ht : st.authorsTableExists = false) :
    Author.validate_name st (some s) = .ok (some s) := by
  simp [Author.validate_name, hb, ht]

/-- C1: `validate_name` raises the uniqueness `ValueError` exactly when the
authors table exists in storage and the lookup finds a stored Author whose
name equals the value; when the table does not exist the uniqueness check is
skipped entirely — the result is independent of the stored Authors and the
uniqueness error is never raised.  (The hypothesis `hwf` is the data-model
invariant that stored Author names are non-blank: they all passed their own
validation.) -/
theorem validate_name_uniqueness_spec (st : Storage)
    (hwf : ∀ n ∈ st.authors, pyStrip n ≠ "") (v : Option String) :
    (Author.validate_name st v =
        .error (.valueError "Author name must be unique.")
      ↔ st.authorsTableExists = true ∧ ∃ s, v = some s ∧ s ∈ st.authors)
    ∧ (st.authorsTableExists = false →
        (∀ l : List String,
          Author.validate_name ⟨false, l⟩ v = Author.validate_name st v)
        ∧ Author.validate_name st v ≠
            .error (.valueError "Author name must be unique.")) := by
  have main : Author.validate_name st v =
      .error (.valueError "Author name must be unique.")
      ↔ st.authorsTableExists = true ∧ ∃ s, v = some s ∧ s ∈ st.authors := by
    cases v with
    | none =>
      have hnone : Author.validate_name st none =
          .error (.valueError "Author must have a name.") := rfl
      rw [hnone]
      constructor
      · intro h
        exact absurd h (by decide)
      · rintro ⟨-, s, hs, -⟩
        exact Option.noConfusion hs
    | some s =>
      by_cases hb : pyStrip s = ""
      · rw [validate_name_of_blank st s hb]
        constructor
        · intro h
          exact absurd h (by decide)
        · rintro ⟨-, s', hs', hm⟩
          obtain rfl : s = s' := Option.some.inj hs'
          exact absurd hb (hwf s hm)
      · by_cases ht : st.authorsTableExists
        · by_cases hm : s ∈ st.authors
          · rw [validate_name_of_dup st s hb ht hm]
            simp [ht, hm]
          · rw [validate_name_ok_of_not_mem st s hb hm]
            simp [ht, hm]
        · have ht' : st.authorsTableExists = false := by simpa using ht
          rw [validate_name_ok_of_no_table st s hb ht']
          simp [ht']
  refine ⟨main, fun hf => ⟨?_, ?_⟩⟩
  · intro l
    cases v with
    | none => rfl
    | some s =>
      by_cases hb : pyStrip s = ""
      · rw [validate_name_of_blank ⟨false, l⟩ s hb,
          validate_name_of_blank st s hb]
      · rw [validate_name_ok_of_no_table ⟨false, l⟩ s hb rfl,
          validate_name_ok_of_no_table st s hb hf]
  · intro h
    obtain ⟨ht, -⟩ := main.mp h
    rw [hf] at ht
    exact Bool.false_ne_true ht

theorem validate_name_uniqueness_spec_witness :
    Author.validate_name ⟨true, ["Ann"]⟩ (some "Ann") =
      .error (.valueError "Author name must be unique.") :=
  (validate_name_uniqueness_spec ⟨true, ["Ann"]⟩ (by decide) (some "Ann")).1.mpr
    ⟨rfl, "Ann", rfl, by decide⟩

/-- C2: `validate_name` raises the required-field `ValueError` iff the value is
null or blank after stripping whitespace; every non-blank value whose name is
not already stored is returned unchanged. -/
theorem validate_name_required_spec (st : Storage) (v : Option String) :
    (Author.validate_name st v =
        .error (.valueError "Author must have a name.")
      ↔ v = none ∨ ∃ s, v = some s ∧ pyStrip s = "")
    ∧ (∀ s, v = some s → pyStrip s ≠ "" → s ∉ st.authors →
        Author.validate_name st v = .ok v) := by
  constructor
  · cases v with
    | none =>
      simp [Author.validate_name]
    | some s =>
      by_cases hb : pyStrip s = ""
      · simp [validate_name_of_blank st s hb, hb]
      · have hne : Author.validate_name st (some s) ≠
            .error (.valueError "Author must have a name.") := by
          by_cases ht : st.authorsTableExists
          · by_cases hm : s ∈ st.authors
            · rw [validate_name_of_dup st s hb ht hm]
              decide
            · rw [validate_name_ok_of_not_mem st s hb hm]
              simp
          · rw [validate_name_ok_of_no_table st s hb (by simpa using ht)]
            simp
        simp [hne, hb]
  · intro s hs hb hm
    subst hs
    exact validate_name_ok_of_not_mem st s hb hm

theorem validate_name_required_spec_witness :
    Author.validate_name ⟨true, ["Bea"]⟩ (some "Ann") = .ok (some "Ann") :=
  (validate_name_required_spec ⟨true, ["Bea"]⟩ (some "Ann")).2 "Ann" rfl
    (by decide) (by decide)

end Models

namespace Models

/-- C3: `validate_phone_number` passes null through unchanged; a non-null
value raises a format `ValueError` unless it is exactly 10 characters long
with every character a decimal digit, and on success the (string form of the)
value is returned; `"5551234567"` succeeds while `"555123456"` and
`"555123456a"` fail. -/
theorem validate_phone_number_spec :
    Author.validate_phone_number none = .ok none
    ∧ (∀ s : String, s.length = 10 → (∀ c ∈ s.toList, c.isDigit = true) →
        Author.validate_phone_number (some s) = .ok (some s))
    ∧ (∀ s : String, ¬(s.length = 10 ∧ ∀ c ∈ s.toList, c.isDigit = true) →
        ∃ m, Author.validate_phone_number (some s) = .error (.valueError m) ∧
          m ∈ ["Phone number must be exactly 10 digits.",
               "Phone number must contain digits only."])
    ∧ Author.validate_phone_number (some "5551234567") = .ok (some "5551234567")
    ∧ Author.validate_phone_number (some "555123456") =
        .error (.valueError "Phone number must be exactly 10 digits.")
    ∧ Author.validate_phone_number (some "555123456a") =
        .error (.valueError "Phone number must contain digits only.") := by
  refine ⟨rfl, ?_, ?_, rfl, rfl, rfl⟩
  · intro s hl hd
    have hd' : pyIsdigit s = true := by
      simp only [pyIsdigit, hl, Bool.and_eq_true, bne_iff_ne, Ne,
        List.all_eq_true]
      exact ⟨by decide, hd⟩
    simp [Author.validate_phone_number, hl, hd']
  · intro s h
    by_cases hl : s.length = 10
    · have hd : ¬∀ c ∈ s.toList, c.isDigit = true := fun hd => h ⟨hl, hd⟩
      have hall : s.toList.all Char.isDigit = false := by
        rw [Bool.eq_false_iff, Ne, List.all_eq_true]
        exact hd
      have hd' : pyIsdigit s = false := by
        unfold pyIsdigit
        rw [hall, Bool.and_false]
      refine ⟨"Phone number must contain digits only.", ?_, by decide⟩
      simp [Author.validate_phone_number, hl, hd']
    · refine ⟨"Phone number must be exactly 10 digits.", ?_, by decide⟩
      simp [Author.validate_phone_number, hl]

theorem validate_phone_number_spec_witness :
    Author.validate_phone_number (some "0123456789") =
      .ok (some "0123456789") :=
  validate_phone_number_spec.2.1 "0123456789" (by decide) (by decide)

/-- C4: `validate_title` raises the required-field `ValueError` iff the value
is null or blank after stripping; a non-blank value is returned unchanged if
some phrase of `CLICKBAIT_PHRASES` occurs in it as a (case-sensitive)
substring and raises the content-policy `ValueError` otherwise;
`"10 Secret Tips"` succeeds while `"Hello World"` fails. -/
theorem validate_title_spec :
    (∀ v, Post.validate_title v =
        .error (.valueError "Post must have a title.")
      ↔ v = none ∨ ∃ s, v = some s ∧ pyStrip s = "")
    ∧ (∀ s, pyStrip s ≠ "" →
        (∃ p ∈ CLICKBAIT_PHRASES, ∃ pre post,
            s.toList = pre ++ p.toList ++ post) →
        Post.validate_title (some s) = .ok (some s))
    ∧ (∀ s, pyStrip s ≠ "" →
        ¬(∃ p ∈ CLICKBAIT_PHRASES, ∃ pre post,
            s.toList = pre ++ p.toList ++ post) →
        Post.validate_title (some s) =
          .error (.valueError "Title must contain clickbait keywords."))
    ∧ Post.validate_title (some "10 Secret Tips") = .ok (some "10 Secret Tips")
    ∧ Post.validate_title (some "Hello World") =
        .error (.valueError "Title must contain clickbait keywords.") := by
  refine ⟨?_, ?_, ?_, rfl, rfl⟩
  · intro v
    cases v with
    | none =>
      simp [Post.validate_title]
    | some s =>
      by_cases hb : pyStrip s = ""
      · simp [Post.validate_title, hb]
      · have hne : Post.validate_title (some s) ≠
            .error (.valueError "Post must have a title.") := by
          simp only [Post.validate_title]
          rw [if_neg hb]
          split
          · decide
          · simp
        simp [hne, hb]
  · intro s hb hex
    have hc : CLICKBAIT_PHRASES.any (fun phrase => pyInStr phrase s) = true := by
      rw [List.any_eq_true]
      obtain ⟨p, hp, pre, post, hsub⟩ := hex
      exact ⟨p, hp, (pyInStr_iff p s).mpr ⟨pre, post, hsub⟩⟩
    simp [Post.validate_title, hb, hc]
  · intro s hb hnex
    have hc : CLICKBAIT_PHRASES.any (fun phrase => pyInStr phrase s) = false := by
      rw [Bool.eq_false_iff, Ne, List.any_eq_true]
      rintro ⟨p, hp, hin⟩
      obtain ⟨pre, post, hsub⟩ := (pyInStr_iff p s).mp hin
      exact hnex ⟨p, hp, pre, post, hsub⟩
    simp [Post.validate_title, hb, hc]

theorem validate_title_spec_witness :
    Post.validate_title (some "10 Secret Tips") = .ok (some "10 Secret Tips") :=
  validate_title_spec.2.1 "10 Secret Tips" (by decide)
    ⟨"Secret", by decide, "10 ".toList, " Tips".toList, by decide⟩

end Models

namespace Models

/-- C8 counterexample: `"Ann"` is accepted by `validate_name` against the
pre-persistence storage (table exists, no stored Authors), but once that
Author is persisted — so its name is now among the stored names — re-applying
`validate_name` to the very value it returned raises the uniqueness
`ValueError` instead of returning it unchanged: the lookup has no
self-exclusion. -/
theorem validate_name_reverify_persisted_fails :
    Author.validate_name ⟨true, []⟩ (some "Ann") = .ok (some "Ann")
    ∧ Author.validate_name ⟨true, ["Ann"]⟩ (some "Ann") =
        .error (.valueError "Author name must be unique.") :=
  ⟨rfl, rfl⟩

/-- C8 (amended): every validator is idempotent on the values it accepts as
long as the storage state read by the uniqueness lookup is unchanged: if a
validator returns a value, applying the same validator (against the same
storage, for `validate_name`) to the returned value succeeds with the same
value, the uniqueness lookup being the only storage access and read-only in
this model.  Re-validating the name of an already-persisted Author — i.e.
against the storage that now contains that name — is excluded: it fails. -/
theorem validators_idempotent :
    (∀ st v r, Author.validate_name st v = .ok r →
        Author.validate_name st r = .ok r)
    ∧ (∀ v r, Author.validate_phone_number v = .ok r →
        Author.validate_phone_number r = .ok r)
    ∧ (∀ v r, Post.validate_title v = .ok r → Post.validate_title r = .ok r)
    ∧ (∀ v r, Post.validate_content v = .ok r →
        Post.validate_content r = .ok r)
    ∧ (∀ v r, Post.validate_summary v = .ok r →
        Post.validate_summary r = .ok r)
    ∧ (∀ v r, Post.validate_category v = .ok r →
        Post.validate_category r = .ok r) := by
  refine ⟨?_, ?_, ?_, ?_, ?_, ?_⟩
  · intro st v r h
    cases v with
    | none => simp [Author.validate_name] at h
    | some s =>
      by_cases hb : pyStrip s = ""
      · rw [validate_name_of_blank st s hb] at h
        exact absurd h (by simp)
      · by_cases ht : st.authorsTableExists
        · by_cases hm : s ∈ st.authors
          · rw [validate_name_of_dup st s hb ht hm] at h
            exact absurd h (by simp)
          · have hok := validate_name_ok_of_not_mem st s hb hm
            rw [hok] at h
            have hr := Except.ok.inj h
            subst hr
            exact hok
        · have hok := validate_name_ok_of_no_table st s hb (by simpa using ht)
          rw [hok] at h
          have hr := Except.ok.inj h
          subst hr
          exact hok
  · intro v r h
    cases v with
    | none =>
      simp only [Author.validate_phone_number] at h
      have hr := Except.ok.inj h
      subst hr
      rfl
    | some s =>
      simp only [Author.validate_phone_number] at h
      split_ifs at h with h1 h2
      have hr := Except.ok.inj h
      subst hr
      simp only [Author.validate_phone_number]
      rw [if_neg h1, if_neg h2]
  · intro v r h
    cases v with
    | none => simp [Post.validate_title] at h
    | some s =>
      simp only [Post.validate_title] at h
      split_ifs at h with h1 h2
      have hr := Except.ok.inj h
      subst hr
      simp only [Post.validate_title]
      rw [if_neg h1, if_neg h2]
  · intro v r h
    cases v with
    | none => simp [Post.validate_content] at h
    | some s =>
      simp only [Post.validate_content] at h
      split_ifs at h with h1
      have hr := Except.ok.inj h
      subst hr
      simp only [Post.validate_content]
      rw [if_neg h1]
  · intro v r h
    cases v with
    | none =>
      simp only [Post.validate_summary] at h
      have hr := Except.ok.inj h
      subst hr
      rfl
    | some s =>
      simp only [Post.validate_summary] at h
      split_ifs at h with h1
      have hr := Except.ok.inj h
      subst hr
      simp only [Post.validate_summary]
      rw [if_neg h1]
  · intro v r h
    simp only [Post.validate_category] at h
    split_ifs at h with h1
    have hr := Except.ok.inj h
    subst hr
    simp only [Post.validate_category]
    rw [if_neg (not_not_intro h1)]

theorem validators_idempotent_witness :
    Author.validate_name ⟨true, ["Bea"]⟩ (some "Cal") = .ok (some "Cal") :=
  validators_idempotent.1 ⟨true, ["Bea"]⟩ (some "Cal") (some "Cal") rfl

end Models

namespace Models

/-- C9: every validation failure across the seven validators of `Author` and
`Post` is a `ValueError` — in this embedding, the single constructor
`PyError.valueError` — carrying one of the fixed message strings of
`validationMessages`; the spec's five error categories exist only as those
message strings, never as distinct exception types. -/
theorem all_failures_are_value_errors :
    (∀ st v e, Author.validate_name st v = .error e →
        ∃ m, e = .valueError m ∧ m ∈ validationMessages)
    ∧ (∀ v e, Author.validate_phone_number v = .error e →
        ∃ m, e = .valueError m ∧ m ∈ validationMessages)
    ∧ (∀ v e, Post.validate_title v = .error e →
        ∃ m, e = .valueError m ∧ m ∈ validationMessages)
    ∧ (∀ v e, Post.validate_content v = .error e →
        ∃ m, e = .valueError m ∧ m ∈ validationMessages)
    ∧ (∀ v e, Post.validate_summary v = .error e →
        ∃ m, e = .valueError m ∧ m ∈ validationMessages)
    ∧ (∀ v e, Post.validate_category v = .error e →
        ∃ m, e = .valueError m ∧ m ∈ validationMessages) := by
  refine ⟨?_, ?_, ?_, ?_, ?_, ?_⟩
  · intro st v e h
    cases v with
    | none =>
      have hnone : Author.validate_name st none =
          .error (.valueError "Author must have a name.") := rfl
      rw [hnone] at h
      exact ⟨_, (Except.error.inj h).symm, by decide⟩
    | some s =>
      by_cases hb : pyStrip s = ""
      · rw [validate_name_of_blank st s hb] at h
        exact ⟨_, (Except.error.inj h).symm, by decide⟩
      · by_cases ht : st.authorsTableExists
        · by_cases hm : s ∈ st.authors
          · rw [validate_name_of_dup st s hb ht hm] at h
            exact ⟨_, (Except.error.inj h).symm, by decide⟩
          · rw [validate_name_ok_of_not_mem st s hb hm] at h
            exact absurd h (by simp)
        · rw [validate_name_ok_of_no_table st s hb (by simpa using ht)] at h
          exact absurd h (by simp)
  · intro v e h
    cases v with
    | none =>
      simp only [Author.validate_phone_number] at h
      exact Except.noConfusion h
    | some s =>
      simp only [Author.validate_phone_number] at h
      split_ifs at h with h1 h2
      · exact ⟨_, (Except.error.inj h).symm, by decide⟩
      · exact ⟨_, (Except.error.inj h).symm, by decide⟩
  · intro v e h
    cases v with
    | none =>
      have hnone : Post.validate_title none =
          .error (.valueError "Post must have a title.") := rfl
      rw [hnone] at h
      exact ⟨_, (Except.error.inj h).symm, by decide⟩
    | some s =>
      simp only [Post.validate_title] at h
      split_ifs at h with h1 h2
      · exact ⟨_, (Except.error.inj h).symm, by decide⟩
      · exact ⟨_, (Except.error.inj h).symm, by decide⟩
  · intro v e h
    cases v with
    | none =>
      have hnone : Post.validate_content none =
          .error (.valueError "Post must have content.") := rfl
      rw [hnone] at h
      exact ⟨_, (Except.error.inj h).symm, by decide⟩
    | some s =>
      simp only [Post.validate_content] at h
      split_ifs at h with h1
      exact ⟨_, (Except.error.inj h).symm, by decide⟩
  · intro v e h
    cases v with
    | none =>
      simp only [Post.validate_summary] at h
      exact Except.noConfusion h
    | some s =>
      simp only [Post.validate_summary] at h
      split_ifs at h with h1
      exact ⟨_, (Except.error.inj h).symm, by decide⟩
  · intro v e h
    simp only [Post.validate_category] at h
    split_ifs at h with h1
    exact ⟨_, (Except.error.inj h).symm, by decide⟩

theorem all_failures_are_value_errors_witness :
    ∃ m, (PyError.valueError "Category must be Fiction or Non-Fiction.") =
        .valueError m ∧ m ∈ validationMessages :=
  all_failures_are_value_errors.2.2.2.2.2 none
    (.valueError "Category must be Fiction or Non-Fiction.") rfl

end Models
